import Mathlib

/-!
Verification of the llm-cli chat client (`main.go`).

The program is an interactive REPL around a remote chat-completion API.
The embedding below models the state machine of `runInteractiveMode`:
the conversation transcript (`messages`), the context file reference
(`contextFile`), the single-line / multi-line input mode (`isMultiline`)
and the pending multi-line input buffer (`lines`).  External
collaborators — the remote completion call and the file read — are
supplied as oracles: `call : Option String` is the outcome of
`callOpenAI` if it is invoked during the turn (`none` = failure), and
`readF : String → Option String` is the outcome of `readFile`.
Terminal output is out of scope, as in the specification: only the
session state is modelled.
-/

namespace LlmCli

/-- Message roles, after the `openai.ChatMessageRole*` constants used in
`main.go`. -/
inductive Role where
  | system
  | user
  | assistant
deriving DecidableEq, Repr

/-- `openai.ChatCompletionMessage`, restricted to the two fields the
program uses. -/
structure ChatCompletionMessage where
  role : Role
  content : String
deriving DecidableEq, Repr

/-- `Config` from `main.go`. -/
structure Config where
  model : String
  aiName : String
  systemPrompt : String
  style : String
deriving DecidableEq, Repr

/-- `cmdQuit` constant from `main.go`. -/
def cmdQuit : String := ":q"

/-- `cmdMulti` constant from `main.go`. -/
def cmdMulti : String := ":multi"

/-- `cmdEnd` constant from `main.go`. -/
def cmdEnd : String := ":end"

/-- `cmdRemove` constant from `main.go`. -/
def cmdRemove : String := ":remove"

/-- `cmdFile` constant from `main.go` (note the trailing space). -/
def cmdFile : String := ":file "

/-- Go `strings.ToLower`, as a character-wise map.  (The command tokens
compared against are all ASCII, where `Char.toLower` agrees with Go's
Unicode lowering.) -/
def strToLower (s : String) : String := String.mk (s.data.map Char.toLower)

/-- Go `strings.HasPrefix p s` (does `s` start with `p`?). -/
def strHasStart (p s : String) : Bool :=
  decide (s.data.take p.data.length = p.data)

/-- Go `strings.TrimPrefix p s`. -/
def strTrimStart (p s : String) : String :=
  if strHasStart p s then String.mk (s.data.drop p.data.length) else s

/-- The mutable session state owned by `runInteractiveMode`
(`main.go` lines 101–107): the transcript `messages`, the context file
reference `contextFile` (Go zero value `""` = none), the session mode
flag `isMultiline`, and the pending multi-line buffer `lines`. -/
structure SessionState where
  messages : List ChatCompletionMessage
  contextFile : String
  isMultiline : Bool
  lines : List String
deriving DecidableEq, Repr

/-- Observable result of processing one raw input line: `didQuit` models
the `return` taken on `:q`; `state` is the session state afterwards;
`calledRemote` records whether `callOpenAI` was invoked this turn. -/
structure StepOut where
  didQuit : Bool
  state : SessionState
  calledRemote : Bool
deriving DecidableEq, Repr

/-- Session state at loop entry (`main.go` lines 101–107): transcript
holding exactly the system message, no context file, single-line mode,
empty buffer. -/
def initialState (config : Config) : SessionState :=
  { messages := [{ role := Role.system, content := config.systemPrompt }]
    contextFile := ""
    isMultiline := false
    lines := [] }

/-- The shared send-a-user-turn block (`main.go` lines 153–169 and
216–230): append the user message, invoke `callOpenAI`; on failure
`continue` (the user message stays appended); on success also append the
assistant message. -/
def sendUserTurn (call : Option String) (st : SessionState)
    (content : String) : StepOut :=
  match call with
  | none =>
    { didQuit := false
      state := { st with messages :=
        st.messages ++ [{ role := Role.user, content := content }] }
      calledRemote := true }
  | some response =>
    { didQuit := false
      state := { st with messages :=
        (st.messages ++ [{ role := Role.user, content := content }])
          ++ [{ role := Role.assistant, content := response }] }
      calledRemote := true }

/-- The flush block reached after the inner scanner loop exits
(`main.go` lines 153–176): if the buffer is non-empty, join it with
newlines and send it as one user turn.  Note that `lines` is NOT
cleared here — the source never resets it after a flush. -/
def flushMultiline (call : Option String) (st : SessionState) : StepOut :=
  if 0 < st.lines.length then
    sendUserTurn call st (String.intercalate "\n" st.lines)
  else
    { didQuit := false, state := st, calledRemote := false }

/-- One iteration of the inner multi-line scanner loop together with the
flush block it breaks into (`main.go` lines 116–176): `:multi` exits
multi-line mode discarding the buffer (the flush then sees an empty
buffer), `:remove` drops the last buffered line, `:end` breaks into the
flush, and any other line — including unrecognised `:`-lines — is
appended to the buffer. -/
def processMultiLine (call : Option String) (st : SessionState)
    (line : String) : StepOut :=
  if strHasStart ":" line then
    if strToLower line = cmdMulti then
      { didQuit := false
        state := { st with isMultiline := false, lines := [] }
        calledRemote := false }
    else if strToLower line = cmdRemove then
      if 0 < st.lines.length then
        { didQuit := false
          state := { st with lines := st.lines.dropLast }
          calledRemote := false }
      else
        { didQuit := false, state := st, calledRemote := false }
    else if strToLower line = cmdEnd then
      flushMultiline call st
    else
      { didQuit := false
        state := { st with lines := st.lines ++ [line] }
        calledRemote := false }
  else
    { didQuit := false
      state := { st with lines := st.lines ++ [line] }
      calledRemote := false }

/-- One single-line-mode turn (`main.go` lines 177–237): `:q` returns,
`:multi` enters multi-line mode clearing the buffer, `:file <name>`
loads the file via the `readF` oracle (on success recording the context
file reference and appending the file content as a user message, with
no remote call; on failure changing nothing), and anything else is sent
as a user turn, tagged with `(Context: …)` when a context file
reference is set. -/
def processSingleLine (readF : String → Option String)
    (call : Option String) (st : SessionState) (userInput : String) :
    StepOut :=
  if strToLower userInput = cmdQuit then
    { didQuit := true, state := st, calledRemote := false }
  else if strToLower userInput = cmdMulti then
    { didQuit := false
      state := { st with isMultiline := true, lines := [] }
      calledRemote := false }
  else if strHasStart cmdFile userInput then
    match readF (strTrimStart cmdFile userInput) with
    | none => { didQuit := false, state := st, calledRemote := false }
    | some content =>
      { didQuit := false
        state := { st with
          contextFile := strTrimStart cmdFile userInput
          messages := st.messages ++ [{ role := Role.user, content :=
            "Content of " ++ strTrimStart cmdFile userInput ++ ":\n"
              ++ content }] }
        calledRemote := false }
  else
    sendUserTurn call st
      (if st.contextFile ≠ "" then
        "(Context: " ++ st.contextFile ++ ") " ++ userInput
      else userInput)

/-- Processing of one raw input line by the `runInteractiveMode` loop,
dispatching on the session mode (`main.go` line 114). -/
def step (readF : String → Option String) (call : Option String)
    (st : SessionState) (line : String) : StepOut :=
  if st.isMultiline then processMultiLine call st line
  else processSingleLine readF call st line

/-- The `runInteractiveMode` loop run over a list of input lines, each
paired with the remote-call oracle for that turn; stops at `:q`. -/
def runLines (readF : String → Option String) :
    SessionState → List (String × Option String) → SessionState
  | st, [] => st
  | st, (line, call) :: rest =>
    if (step readF call st line).didQuit then (step readF call st line).state
    else runLines readF (step readF call st line).state rest

/-- `openai.ChatCompletionChoice`, restricted to the field `callOpenAI`
reads. -/
structure ChatCompletionChoice where
  message : ChatCompletionMessage
deriving DecidableEq, Repr

/-- `openai.ChatCompletionResponse`, restricted to the field
`callOpenAI` reads. -/
structure ChatCompletionResponse where
  choices : List ChatCompletionChoice
deriving DecidableEq, Repr

/-- `callOpenAI` (`main.go` lines 279–293).  The remote request outcome
is the oracle `result`.  On error the error is returned; otherwise the
source returns `resp.Choices[0].Message.Content`, indexing the choices
slice unguarded — on an empty choices list this index is out of bounds
(a Go run-time panic), modelled here by the outer `none`. -/
def callOpenAI (result : Except String ChatCompletionResponse) :
    Option (Except String String) :=
  match result with
  | Except.error err => some (Except.error err)
  | Except.ok resp =>
    match resp.choices with
    | [] => none
    | choice :: _ => some (Except.ok choice.message.content)

/-- The two-message list built by `main`'s non-interactive branch and
passed to `callOpenAI` (`main.go` lines 79–82). -/
def singleShotMessages (config : Config) (prompt : String) :
    List ChatCompletionMessage :=
  [ { role := Role.system, content := config.systemPrompt },
    { role := Role.user, content := prompt } ]

/-! ### Helper lemmas about the string primitives -/

theorem data_append (a b : String) : (a ++ b).data = a.data ++ b.data := rfl

theorem data_mk (l : List Char) : (String.mk l).data = l := rfl

theorem mk_data (s : String) : String.mk s.data = s := rfl

/-- Lowering a character yields `:` only for `:` itself. -/
theorem char_toLower_colon {c : Char} (h : Char.toLower c = ':') : c = ':' := by
  simp only [Char.toLower] at h
  split at h
  · rename_i hn
    have hv : (c.toNat + 32).isValidChar := by
      obtain ⟨h1, h2⟩ := hn
      left; omega
    have h2 := congrArg Char.toNat h
    rw [show (Char.ofNat (c.toNat + 32)).toNat = c.toNat + 32 by
      simp [Char.ofNat, hv]; rfl] at h2
    rw [show (':' : Char).toNat = 58 from rfl] at h2
    omega
  · exact h

/-- A line whose lowered form is a command starting with `:` itself
starts with `:`. -/
theorem strHasStart_colon_of_toLower {line c : String}
    (hc : c.data.head? = some ':') (h : strToLower line = c) :
    strHasStart ":" line = true := by
  have hd : List.map Char.toLower line.data = c.data := congrArg String.data h
  cases hl : line.data with
  | nil =>
    rw [hl] at hd
    rw [← hd] at hc
    simp at hc
  | cons ch rest =>
    rw [hl] at hd
    have hch : Char.toLower ch = ':' := by
      rw [← hd] at hc
      simpa using hc
    have hcolon : ch = ':' := char_toLower_colon hch
    have h1 : (":" : String).data = [':'] := by decide
    simp [strHasStart, h1, hl, hcolon]

theorem strHasStart_append (p f : String) : strHasStart p (p ++ f) = true := by
  simp [strHasStart, data_append, List.take_left]

theorem strTrimStart_append (p f : String) : strTrimStart p (p ++ f) = f := by
  rw [strTrimStart, if_pos (strHasStart_append p f)]
  rw [show (p ++ f).data = p.data ++ f.data from rfl, List.drop_left]

/-- A `:file ` line is never mistaken for `:q` or `:multi`. -/
theorem strToLower_cmdFile_ne (f : String) :
    strToLower (cmdFile ++ f) ≠ cmdQuit ∧ strToLower (cmdFile ++ f) ≠ cmdMulti := by
  constructor
  · intro h
    have hd : List.map Char.toLower (cmdFile.data ++ f.data) = cmdQuit.data :=
      congrArg String.data h
    have hlen := congrArg List.length hd
    simp only [List.length_map, List.length_append] at hlen
    rw [show cmdFile.data.length = 6 from by decide,
        show cmdQuit.data.length = 2 from by decide] at hlen
    omega
  · intro h
    have hd : List.map Char.toLower (cmdFile.data ++ f.data) = cmdMulti.data :=
      congrArg String.data h
    rw [List.map_append] at hd
    rw [show List.map Char.toLower cmdFile.data = ':' :: 'f' :: ['i', 'l', 'e', ' ']
      from by decide] at hd
    rw [show cmdMulti.data = ':' :: 'm' :: ['u', 'l', 't', 'i'] from by decide] at hd
    simp only [List.cons_append] at hd
    injection hd with h1 h2
    injection h2 with h3 h4
    exact absurd h3 (by decide)

/-! ### Structural lemmas about one step of the loop -/

/-- Every branch of the loop body either leaves the transcript unchanged
or appends at the end. -/
theorem step_messages_delta (readF : String → Option String)
    (call : Option String) (st : SessionState) (line : String) :
    ∃ t, (step readF call st line).state.messages = st.messages ++ t := by
  unfold step processMultiLine processSingleLine flushMultiline sendUserTurn
  repeat' split
  all_goals first
    | exact ⟨[], (List.append_nil _).symm⟩
    | exact ⟨_, rfl⟩
    | exact ⟨_, List.append_assoc _ _ _⟩

/-- When the remote-call oracle reports failure, a turn either makes no
call at all or ends with exactly one user message appended and
everything else unchanged. -/
theorem step_none_cases (readF : String → Option String)
    (st : SessionState) (line : String) :
    (step readF none st line).calledRemote = false ∨
    ∃ c, step readF none st line =
      ⟨false, { st with messages :=
        st.messages ++ [{ role := Role.user, content := c }] }, true⟩ := by
  unfold step processMultiLine processSingleLine flushMultiline sendUserTurn
  repeat' split
  all_goals first
    | exact Or.inl rfl
    | exact Or.inr ⟨_, rfl⟩
    | (exfalso; simp_all)

/-- The context file reference changes only on a successful single-line
`:file` command, and then to the trimmed file name. -/
theorem step_contextFile_cases (readF : String → Option String)
    (call : Option String) (st : SessionState) (line : String) :
    (step readF call st line).state.contextFile = st.contextFile ∨
    (st.isMultiline = false ∧ strHasStart cmdFile line = true ∧
      ∃ content, readF (strTrimStart cmdFile line) = some content ∧
        (step readF call st line).state.contextFile = strTrimStart cmdFile line) := by
  unfold step processMultiLine processSingleLine flushMultiline sendUserTurn
  repeat' split
  all_goals try exact Or.inl rfl
  all_goals
    refine Or.inr ⟨by simp_all, by assumption, ?_⟩
    exact ⟨_, by assumption, rfl⟩

/-- The transcript head survives any run of the loop: if the state's
message list starts with `sys`, it still does after processing any list
of input lines. -/
theorem runLines_system_head (readF : String → Option String)
    (sys : ChatCompletionMessage) (inputs : List (String × Option String)) :
    ∀ st : SessionState, (∃ t, st.messages = sys :: t) →
      ∃ t, (runLines readF st inputs).messages = sys :: t := by
  induction inputs with
  | nil => intro st h; exact h
  | cons p rest ih =>
    obtain ⟨line, call⟩ := p
    intro st h
    obtain ⟨t, ht⟩ := h
    obtain ⟨u, hu⟩ := step_messages_delta readF call st line
    rw [runLines]
    split
    · exact ⟨t ++ u, by rw [hu, ht]; simp⟩
    · exact ih _ ⟨t ++ u, by rw [hu, ht]; simp⟩

/-! ### Claim theorems -/

/-- C1 (counterexample): the claim says `:q` terminates the loop in every
session state, but in multi-line mode the line `":q"` does not terminate
the loop — it is appended to the Pending Input Buffer. -/
theorem quit_ignored_in_multiline :
    (step (fun _ => none) none
      ⟨[{ role := Role.system, content := "S" }], "", true, []⟩ ":q").didQuit = false ∧
    (step (fun _ => none) none
      ⟨[{ role := Role.system, content := "S" }], "", true, []⟩ ":q").state.lines = [":q"] := by
  decide

/-- C1 (amended): an input line whose lowercase form equals `":q"`
terminates the loop — with no message appended, no remote call, and no
other state change — exactly when the session is in single-line mode;
in multi-line mode the same line is appended to the Pending Input
Buffer like any other unrecognised line. -/
theorem quit_behavior (readF : String → Option String) (call : Option String)
    (st : SessionState) (input : String) (h : strToLower input = cmdQuit) :
    (st.isMultiline = false → step readF call st input =
      { didQuit := true, state := st, calledRemote := false }) ∧
    (st.isMultiline = true → step readF call st input =
      { didQuit := false, state := { st with lines := st.lines ++ [input] },
        calledRemote := false }) := by
  constructor
  · intro hm
    unfold step processSingleLine
    simp [hm, h]
  · intro hm
    have hstart : strHasStart ":" input = true :=
      strHasStart_colon_of_toLower (by decide) h
    unfold step processMultiLine
    simp [hm, hstart, h, cmdQuit, cmdMulti, cmdRemove, cmdEnd]

/-- Witness for `quit_behavior` at the concrete input `":Q"` in
single-line mode. -/
theorem quit_behavior_witness :
    strToLower ":Q" = cmdQuit ∧
    step (fun _ => none) none
      ⟨[{ role := Role.system, content := "S" }], "", false, []⟩ ":Q" =
      { didQuit := true,
        state := ⟨[{ role := Role.system, content := "S" }], "", false, []⟩,
        calledRemote := false } :=
  ⟨by decide, (quit_behavior (fun _ => none) none _ ":Q" (by decide)).1 rfl⟩

/-- C2 (code bug, evaluated at the failing input): flushing the
non-empty buffer `["a"]` with `":end"` (successful call answering
`"ok"`) sends the joined input and keeps the session in multi-line
mode, but leaves the Pending Input Buffer still `["a"]`: the source
never clears `lines` after a flush, so the claimed (and specified)
clearing does not happen and a later `":end"` would resend the line. -/
theorem end_does_not_clear_buffer :
    step (fun _ => none) (some "ok")
      ⟨[{ role := Role.system, content := "S" }], "", true, ["a"]⟩ ":end" =
      { didQuit := false,
        state := ⟨[{ role := Role.system, content := "S" },
          { role := Role.user, content := "a" },
          { role := Role.assistant, content := "ok" }], "", true, ["a"]⟩,
        calledRemote := true } ∧
    (step (fun _ => none) (some "ok")
      ⟨[{ role := Role.system, content := "S" }], "", true, ["a"]⟩ ":end").state.lines ≠ [] := by
  decide

/-- C3 (counterexample): the claim says a turn whose remote call fails
leaves the Transcript unchanged, but the plain input `"hi"` with a
failing call leaves the user message appended: the transcript after the
turn differs from the transcript before it. -/
theorem failed_turn_changes_transcript :
    (step (fun _ => none) none
      ⟨[{ role := Role.system, content := "S" }], "", false, []⟩ "hi").calledRemote = true ∧
    (step (fun _ => none) none
      ⟨[{ role := Role.system, content := "S" }], "", false, []⟩ "hi").state.messages ≠
      [{ role := Role.system, content := "S" }] := by
  decide

/-- C3 (amended): in a turn whose remote call fails, the loop continues
and the Transcript after the turn equals the Transcript before the turn
plus exactly the one user Message of the failed turn — no assistant
Message is recorded, and mode, buffer and context reference are
unchanged. -/
theorem failed_turn_appends_only_user (readF : String → Option String)
    (st : SessionState) (line : String)
    (h : (step readF none st line).calledRemote = true) :
    ∃ c, step readF none st line =
      { didQuit := false,
        state := { st with messages := st.messages ++
          [{ role := Role.user, content := c }] },
        calledRemote := true } := by
  rcases step_none_cases readF st line with hf | hs
  · rw [hf] at h
    exact absurd h (by simp)
  · exact hs

/-- Witness for `failed_turn_appends_only_user` at the concrete plain
input `"hi"`. -/
theorem failed_turn_appends_only_user_witness :
    (step (fun _ => none) none
      ⟨[{ role := Role.system, content := "S" }], "", false, []⟩ "hi").calledRemote = true ∧
    ∃ c, step (fun _ => none) none
      ⟨[{ role := Role.system, content := "S" }], "", false, []⟩ "hi" =
      { didQuit := false,
        state := { (⟨[{ role := Role.system, content := "S" }], "", false, []⟩ : SessionState) with
          messages := [{ role := Role.system, content := "S" }] ++
            [{ role := Role.user, content := c }] },
        calledRemote := true } :=
  ⟨by decide, failed_turn_appends_only_user (fun _ => none) _ "hi" (by decide)⟩

/-- C4: in any turn in which the remote call is made and fails, the loop
does not terminate and the transcript grows only by messages none of
which is an assistant message. -/
theorem failed_call_no_assistant (readF : String → Option String)
    (st : SessionState) (line : String)
    (h : (step readF none st line).calledRemote = true) :
    (step readF none st line).didQuit = false ∧
    ∃ t, (step readF none st line).state.messages = st.messages ++ t ∧
      ∀ m ∈ t, m.role ≠ Role.assistant := by
  rcases step_none_cases readF st line with hf | ⟨c, hs⟩
  · rw [hf] at h
    exact absurd h (by simp)
  · rw [hs]
    refine ⟨rfl, [{ role := Role.user, content := c }], rfl, ?_⟩
    intro m hm
    simp at hm
    rw [hm]
    simp

/-- Witness for `failed_call_no_assistant` at the concrete plain input
`"hello"`. -/
theorem failed_call_no_assistant_witness :
    (step (fun _ => none) none
      ⟨[{ role := Role.system, content := "S" }], "", false, []⟩ "hello").calledRemote = true ∧
    ((step (fun _ => none) none
      ⟨[{ role := Role.system, content := "S" }], "", false, []⟩ "hello").didQuit = false ∧
    ∃ t, (step (fun _ => none) none
      ⟨[{ role := Role.system, content := "S" }], "", false, []⟩ "hello").state.messages =
        [{ role := Role.system, content := "S" }] ++ t ∧
      ∀ m ∈ t, m.role ≠ Role.assistant) :=
  ⟨by decide, failed_call_no_assistant (fun _ => none) _ "hello" (by decide)⟩

/-- C5: in single-line mode, a line consisting of the case-sensitive
`":file "` command followed by a file name loads the file via the read
oracle: on success it records the context file reference, appends
exactly one user message `"Content of {fileName}:\n{content}"`, and
makes no remote call; on read failure nothing changes at all. -/
theorem file_command_behavior (readF : String → Option String)
    (call : Option String) (st : SessionState) (fileName : String)
    (hm : st.isMultiline = false) :
    (∀ content, readF fileName = some content →
      step readF call st (cmdFile ++ fileName) =
        { didQuit := false,
          state := { st with
            contextFile := fileName
            messages := st.messages ++ [{ role := Role.user, content :=
              "Content of " ++ fileName ++ ":\n" ++ content }] },
          calledRemote := false }) ∧
    (readF fileName = none →
      step readF call st (cmdFile ++ fileName) =
        { didQuit := false, state := st, calledRemote := false }) := by
  obtain ⟨hq, hmu⟩ := strToLower_cmdFile_ne fileName
  have hstart := strHasStart_append cmdFile fileName
  have htrim := strTrimStart_append cmdFile fileName
  constructor
  · intro content hr
    unfold step processSingleLine
    simp [hm, hq, hmu, hstart, htrim, hr]
  · intro hr
    unfold step processSingleLine
    simp [hm, hq, hmu, hstart, htrim, hr]

/-- Witness for `file_command_behavior` at the concrete file
`"notes.txt"` with content `"hello"`. -/
theorem file_command_behavior_witness :
    (fun n => if n = "notes.txt" then (some "hello" : Option String) else none) "notes.txt"
        = some "hello" ∧
    step (fun n => if n = "notes.txt" then (some "hello" : Option String) else none) none
      ⟨[{ role := Role.system, content := "S" }], "", false, []⟩
      (cmdFile ++ "notes.txt") =
      { didQuit := false,
        state := ⟨[{ role := Role.system, content := "S" },
          { role := Role.user, content := "Content of notes.txt:\nhello" }],
          "notes.txt", false, []⟩,
        calledRemote := false } :=
  ⟨by decide,
    (file_command_behavior (fun n => if n = "notes.txt" then some "hello" else none)
      none ⟨[{ role := Role.system, content := "S" }], "", false, []⟩
      "notes.txt" rfl).1 "hello" (by decide)⟩

/-- C6: with a context file reference set, a plain single-line input is
sent with content exactly `"(Context: {file}) {line}"`; a multi-line
flush via `:end` sends exactly the newline-joined buffer with no such
tag; and the reference only ever changes through a successful
single-line `:file` command. -/
theorem context_tag_behavior (readF : String → Option String)
    (call : Option String) (st : SessionState) (line : String) :
    (st.isMultiline = false → st.contextFile ≠ "" →
      strToLower line ≠ cmdQuit → strToLower line ≠ cmdMulti →
      strHasStart cmdFile line = false →
      step readF call st line = sendUserTurn call st
        ("(Context: " ++ st.contextFile ++ ") " ++ line)) ∧
    (st.isMultiline = true → strToLower line = cmdEnd → 0 < st.lines.length →
      step readF call st line = sendUserTurn call st
        (String.intercalate "\n" st.lines)) ∧
    ((step readF call st line).state.contextFile ≠ st.contextFile →
      st.isMultiline = false ∧ strHasStart cmdFile line = true ∧
        ∃ content, readF (strTrimStart cmdFile line) = some content ∧
          (step readF call st line).state.contextFile = strTrimStart cmdFile line) := by
  refine ⟨?_, ?_, ?_⟩
  · intro hm hc hq hmu hf
    unfold step processSingleLine
    simp [hm, hq, hmu, hf, hc]
  · intro hm he hlen
    have hstart : strHasStart ":" line = true :=
      strHasStart_colon_of_toLower (by decide) he
    unfold step processMultiLine flushMultiline
    simp [hm, hstart, he, hlen, cmdMulti, cmdRemove, cmdEnd]
  · intro hne
    rcases step_contextFile_cases readF call st line with heq | hfile
    · exact absurd heq hne
    · exact hfile

/-- Witness for `context_tag_behavior` at the concrete plain input
`"what next?"` with context file `"notes.txt"`. -/
theorem context_tag_behavior_witness :
    strToLower "what next?" ≠ cmdQuit ∧
    step (fun _ => none) (some "r")
      ⟨[{ role := Role.system, content := "S" }], "notes.txt", false, []⟩ "what next?" =
      sendUserTurn (some "r")
        ⟨[{ role := Role.system, content := "S" }], "notes.txt", false, []⟩
        ("(Context: " ++ "notes.txt" ++ ") " ++ "what next?") :=
  ⟨by decide,
    (context_tag_behavior (fun _ => none) (some "r") _ "what next?").1
      rfl (by decide) (by decide) (by decide) (by decide)⟩

/-- C7: in multi-line mode, a line whose lowercase form equals
`":remove"` leaves an empty buffer unchanged and removes exactly the
last line of a non-empty buffer; in both cases the session stays in
multi-line mode and nothing else changes. -/
theorem remove_last_line (readF : String → Option String)
    (call : Option String) (st : SessionState) (line : String)
    (hm : st.isMultiline = true) (h : strToLower line = cmdRemove) :
    (st.lines = [] →
      step readF call st line =
        { didQuit := false, state := st, calledRemote := false }) ∧
    (∀ xs x, st.lines = xs ++ [x] →
      step readF call st line =
        { didQuit := false, state := { st with lines := xs },
          calledRemote := false }) := by
  have hstart : strHasStart ":" line = true :=
    strHasStart_colon_of_toLower (by decide) h
  constructor
  · intro he
    unfold step processMultiLine
    simp [hm, hstart, h, he, cmdMulti, cmdRemove]
  · intro xs x hxs
    have hlen : 0 < st.lines.length := by rw [hxs]; simp
    unfold step processMultiLine
    simp [hm, hstart, h, hlen, cmdMulti, cmdRemove, hxs]

/-- Witness for `remove_last_line` at the concrete buffer
`["a", "b"]` and input `":REMOVE"`. -/
theorem remove_last_line_witness :
    strToLower ":REMOVE" = cmdRemove ∧
    step (fun _ => none) none
      ⟨[{ role := Role.system, content := "S" }], "", true, ["a", "b"]⟩ ":REMOVE" =
      { didQuit := false,
        state := { (⟨[{ role := Role.system, content := "S" }], "", true,
          ["a", "b"]⟩ : SessionState) with lines := ["a"] },
        calledRemote := false } :=
  ⟨by decide,
    (remove_last_line (fun _ => none) none _ ":REMOVE" rfl (by decide)).2 ["a"] "b" rfl⟩

/-- C8: every reachable session state has a transcript whose element 0
is the system message built from the configured system prompt (so the
transcript is never empty), and every single operation of the loop
either leaves the transcript unchanged or appends at the end. -/
theorem transcript_append_only (config : Config)
    (readF : String → Option String)
    (inputs : List (String × Option String)) :
    (∃ t, (runLines readF (initialState config) inputs).messages =
      { role := Role.system, content := config.systemPrompt } :: t) ∧
    (∀ call st line, ∃ u,
      (step readF call st line).state.messages = st.messages ++ u) := by
  constructor
  · exact runLines_system_head readF _ inputs (initialState config) ⟨[], rfl⟩
  · intro call st line
    exact step_messages_delta readF call st line

/-- C9: the single-shot runner passes to the remote call exactly the
two-element list system-then-user, e.g. system prompt `"be terse"` and
prompt `"2+2"` yield `[{system, "be terse"}, {user, "2+2"}]`. -/
theorem single_shot_two_messages (config : Config) (prompt : String) :
    (singleShotMessages config prompt).length = 2 ∧
    (singleShotMessages config prompt)[0]? =
      some { role := Role.system, content := config.systemPrompt } ∧
    (singleShotMessages config prompt)[1]? =
      some { role := Role.user, content := prompt } ∧
    singleShotMessages (Config.mk "gpt-x" "Bot" "be terse" "dark") "2+2" =
      [{ role := Role.system, content := "be terse" },
       { role := Role.user, content := "2+2" }] :=
  ⟨rfl, rfl, rfl, rfl⟩

/-- C10: `callOpenAI` propagates a remote failure as an error, and on a
successful response indexes the first choice unguarded: a successful
response with an empty choices list does not take the error branch and
reaches the out-of-bounds index (the `none` outcome), while any
response with at least one choice yields that choice's message
content. -/
theorem callOpenAI_choices (e : String) (resp : ChatCompletionResponse) :
    callOpenAI (Except.error e) = some (Except.error e) ∧
    (resp.choices = [] → callOpenAI (Except.ok resp) = none) ∧
    (∀ choice rest, resp.choices = choice :: rest →
      callOpenAI (Except.ok resp) = some (Except.ok choice.message.content)) := by
  refine ⟨rfl, ?_, ?_⟩
  · intro h
    cases resp with
    | mk cs =>
      cases cs with
      | nil => rfl
      | cons c cs => exact absurd h (by simp)
  · intro choice rest h
    cases resp with
    | mk cs =>
      cases cs with
      | nil => exact absurd h (by simp)
      | cons c cs =>
        have hc : c = choice := by
          have hh := congrArg List.head? h
          simpa using hh
        rw [show callOpenAI (Except.ok (ChatCompletionResponse.mk (c :: cs))) =
          some (Except.ok c.message.content) from rfl, hc]

/-- Witness for `callOpenAI_choices` at the concrete successful response
with an empty choices list. -/
theorem callOpenAI_choices_witness :
    (ChatCompletionResponse.mk []).choices = [] ∧
    callOpenAI (Except.ok (ChatCompletionResponse.mk [])) = none :=
  ⟨rfl, (callOpenAI_choices "boom" (ChatCompletionResponse.mk [])).2.1 rfl⟩

end LlmCli
